import Mathlib

/-!
Shallow embedding of the Seltra AMM volatility-adaptive rebalancing engine.

The definitions below are translated from the repository's Python sources:
* `src/contracts/rebalancing_engine/contract.py` (on-chain fixed-point variant),
* `src/contracts/legacy/rebalancing_engine/test_logic.py` (pure-integer test harness),
* `src/contracts/legacy/volatility_oracle/contract.py` (legacy volatility oracle).

Machine integers (`algopy.UInt64` / Python `int`) are embedded as `Nat`.
The idiom `abs(a - b)` in the sources is the integer absolute difference and
is embedded as `natDist`.  Divisions whose divisor can be zero at runtime
(which raises `ZeroDivisionError` in Python and fails an AVM transaction)
are embedded with `safeDiv`, returning `none` on a zero divisor; an operation
that can hit such a division returns `Option`.
-/

namespace Seltra

/-- Absolute difference of two naturals, the meaning of `abs(a - b)` on the
Python integers of the source. -/
def natDist (a b : Nat) : Nat := max a b - min a b

/-- Division that fails on a zero divisor, matching Python `//` and the AVM
`/` opcode, both of which abort on division by zero. -/
def safeDiv (a b : Nat) : Option Nat := if b = 0 then none else some (a / b)

/-- A liquidity range: `lower` and `upper` price bounds and a liquidity
amount.  The contract stores ranges as `(lower, upper, liquidity)` triples in
a static array of six slots; a slot with `liquidity = 0` is an empty range. -/
structure LRange where
  lower : Nat
  upper : Nat
  liquidity : Nat
deriving DecidableEq, Repr

/-- The all-zero (empty) range slot. -/
def LRange.empty : LRange := ⟨0, 0, 0⟩

/-- Sum of the `liquidity` field, counting only slots with positive
liquidity exactly as the `if ... > 0` guards of `_validate_safety` do (a zero
slot contributes nothing either way). -/
def totalLiq : List LRange → Nat
  | [] => 0
  | r :: rest => (if r.liquidity > 0 then r.liquidity else 0) + totalLiq rest

/-- Volatility regimes of `_classify_volatility_regime`. -/
inductive Regime where
  | ultraLow
  | low
  | medium
  | high
  | extreme
deriving DecidableEq, Repr

/-- `_classify_volatility_regime` from `rebalancing_engine/contract.py`
(lines 316-356): decision tree over the fixed thresholds, returning
`(regime, concentration_factor, num_ranges)`. -/
def classifyVolatilityRegime (volatility : Nat) : Regime × Nat × Nat :=
  if volatility < 15000 then (.ultraLow, 4000, 2)
  else if volatility < 30000 then (.low, 6000, 3)
  else if volatility < 60000 then (.medium, 10000, 4)
  else if volatility < 120000 then (.high, 18000, 5)
  else (.extreme, 25000, 6)

/-- `should_rebalance` from `rebalancing_engine/contract.py` (lines 157-193),
with the engine's configured `rebalance_cooldown` passed explicitly. -/
def shouldRebalance (cooldown efficiency timeSinceLast volatilityChange : Nat) : Bool :=
  if timeSinceLast < cooldown then false
  else if efficiency < 6000 then true
  else if volatilityChange > 20000 then true
  else if timeSinceLast > 3600 then true
  else false

/-- One slot of `_calculate_ranges_for_regime` from
`rebalancing_engine/contract.py` (lines 395-419): slot `i < numRanges` gets
equal-width bounds and a base allocation plus a proximity bonus; other slots
are empty. -/
def contractRangeSlot (currentPrice minPrice maxPrice rangeSize numRanges totalLiquidity i : Nat) :
    LRange :=
  if i < numRanges then
    let lower := minPrice + i * rangeSize
    let upper := minPrice + (i + 1) * rangeSize
    let rangeCenter := (lower + upper) / 2
    let distance := natDist rangeCenter currentPrice
    let maxDistance := (maxPrice - minPrice) / 2
    let proximityFactor := if maxDistance > 0
      then (maxDistance - distance) * 10000 / maxDistance
      else 10000
    let baseAllocation := totalLiquidity / numRanges
    let proximityBonus := baseAllocation * proximityFactor / 20000
    ⟨lower, upper, baseAllocation + proximityBonus⟩
  else LRange.empty

/-- `_calculate_ranges_for_regime` from `rebalancing_engine/contract.py`
(lines 358-428): price bounds from the concentration factor (capped at 50%),
degenerate-bound correction, then six slots via `contractRangeSlot`. -/
def calculateRangesForRegime (currentPrice concentrationFactor numRanges totalLiquidity : Nat) :
    List LRange :=
  let priceBoundPercent := min (concentrationFactor * 100 / 10000) 50
  let priceRange := currentPrice * priceBoundPercent / 100
  let minPrice0 := currentPrice - priceRange
  let maxPrice0 := currentPrice + priceRange
  let minPrice := if minPrice0 ≤ 0 then currentPrice / 2 else minPrice0
  let maxPrice := if maxPrice0 ≤ minPrice then minPrice + currentPrice / 10 else maxPrice0
  let rangeSize := (maxPrice - minPrice) / numRanges
  (List.range 6).map
    (contractRangeSlot currentPrice minPrice maxPrice rangeSize numRanges totalLiquidity)

/-- Weight of one range in the first pass of
`calculate_ranges_for_regime` from `legacy/rebalancing_engine/test_logic.py`
(lines 86-106): base weight 10000 plus half the proximity factor. -/
def logicRangeWeight (currentPrice minPrice maxPrice rangeSize i : Nat) : Nat :=
  let lower := minPrice + i * rangeSize
  let upper := minPrice + (i + 1) * rangeSize
  let rangeCenter := (lower + upper) / 2
  let distance := natDist rangeCenter currentPrice
  let maxDistance := (maxPrice - minPrice) / 2
  let proximityFactor := if maxDistance > 0
    then (maxDistance - distance) * 10000 / maxDistance
    else 10000
  10000 + proximityFactor / 2

/-- `calculate_ranges_for_regime` from
`legacy/rebalancing_engine/test_logic.py` (lines 51-118): same bounds as the
contract, then weight-proportional allocation
`liquidity_i = total * w_i // total_weight`. -/
def logicCalculateRanges (currentPrice concentrationFactor numRanges totalLiquidity : Nat) :
    List LRange :=
  let priceBoundPercent := min (concentrationFactor * 100 / 10000) 50
  let priceRange := currentPrice * priceBoundPercent / 100
  let minPrice0 := currentPrice - priceRange
  let maxPrice0 := currentPrice + priceRange
  let minPrice := if minPrice0 ≤ 0 then currentPrice / 2 else minPrice0
  let maxPrice := if maxPrice0 ≤ minPrice then minPrice + currentPrice / 10 else maxPrice0
  let rangeSize := (maxPrice - minPrice) / numRanges
  let weights := (List.range numRanges).map
    (logicRangeWeight currentPrice minPrice maxPrice rangeSize)
  let totalWeight := weights.foldl (· + ·) 0
  (List.range numRanges).map fun i =>
    ⟨minPrice + i * rangeSize, minPrice + (i + 1) * rangeSize,
      totalLiquidity * (weights.getD i 0) / totalWeight⟩

/-- Plain sum of liquidity over a range list (the test harness sums all
entries without a guard). -/
def sumLiq (rs : List LRange) : Nat := rs.foldl (fun acc r => acc + r.liquidity) 0

/-- Proximity score of one non-empty range in `_calculate_efficiency_score`
from `rebalancing_engine/contract.py` (lines 495-506).  Both branches divide
by `max_reasonable_distance`; the result is `none` when that divisor is
zero, where the Python source raises `ZeroDivisionError` and the AVM fails
the transaction. -/
def contractProximityScore (currentPrice volatility lower upper : Nat) : Option Nat :=
  let rangeCenter := (lower + upper) / 2
  let distance := natDist rangeCenter currentPrice
  let maxReasonableDistance := currentPrice * volatility / 5000
  if distance ≤ maxReasonableDistance then
    match safeDiv (distance * 5000) maxReasonableDistance with
    | none => none
    | some q => some (10000 - q)
  else
    match safeDiv distance maxReasonableDistance with
    | none => none
    | some q => some (5000 / (1 + q))

/-- Loop of `_calculate_efficiency_score` from
`rebalancing_engine/contract.py` (lines 486-509), accumulating
`(total_liquidity, concentration_score)` over the slots; empty slots are
skipped. -/
def contractEffFold (currentPrice volatility : Nat) (acc : Nat × Nat) :
    List LRange → Option (Nat × Nat)
  | [] => some acc
  | r :: rest =>
    if r.liquidity > 0 then
      match contractProximityScore currentPrice volatility r.lower r.upper with
      | none => none
      | some ps =>
        contractEffFold currentPrice volatility
          (acc.1 + r.liquidity, acc.2 + ps * r.liquidity / 10000) rest
    else contractEffFold currentPrice volatility acc rest

/-- `_calculate_efficiency_score` from `rebalancing_engine/contract.py`
(lines 477-517): fold the slots, return 0 for zero total liquidity,
otherwise normalise and clamp at 10000. -/
def contractEfficiencyScore (ranges : List LRange) (currentPrice volatility : Nat) :
    Option Nat :=
  match contractEffFold currentPrice volatility (0, 0) ranges with
  | none => none
  | some (totalLiquidity, concentrationScore) =>
    if totalLiquidity = 0 then some 0
    else some (min (concentrationScore * 10000 / totalLiquidity) 10000)

/-- Proximity score of one range in `calculate_efficiency_score` from
`legacy/rebalancing_engine/test_logic.py` (lines 134-155): same decay and
reciprocal penalty when `max_reasonable_distance > 0`, and a step function
(full score within 1% of the price, fixed 1000 otherwise) when it is zero. -/
def logicProximityScore (currentPrice volatility lower upper : Nat) : Nat :=
  let rangeCenter := (lower + upper) / 2
  let distance := natDist rangeCenter currentPrice
  let maxReasonableDistance := currentPrice * volatility / 5000
  if maxReasonableDistance > 0 then
    if distance ≤ maxReasonableDistance then
      10000 - distance * 5000 / maxReasonableDistance
    else
      5000 / (1 + distance / maxReasonableDistance)
  else
    if distance < currentPrice / 100 then 10000 else 1000

/-- `calculate_efficiency_score` from
`legacy/rebalancing_engine/test_logic.py` (lines 120-163): total liquidity
first (0 score if zero), then the weighted sum over all ranges, normalised
and clamped at 10000. -/
def logicEfficiencyScore (ranges : List LRange) (currentPrice volatility : Nat) : Nat :=
  let totalLiquidity := sumLiq ranges
  if totalLiquidity = 0 then 0
  else
    let concentrationScore := ranges.foldl
      (fun acc r =>
        acc + logicProximityScore currentPrice volatility r.lower r.upper * r.liquidity / 10000)
      0
    min (concentrationScore * 10000 / totalLiquidity) 10000

/-- Failure reasons of `_validate_safety`, standing for the reason strings
built at `rebalancing_engine/contract.py` lines 453-473. -/
inductive SafetyReason where
  | notConserved
  | invalidBounds (i : Nat)
  | nonPositiveLiquidity (i : Nat)
  | tooSmall (i : Nat)
  | passed
deriving DecidableEq, Repr

/-- The per-slot loop of `_validate_safety` from
`rebalancing_engine/contract.py` (lines 456-471), carrying the slot index
`i`.  The minimum-size computation divides by `lower`; `none` models the
runtime fault when a non-empty slot has `lower = 0`. -/
def checkRangesFrom (minRangeSize i : Nat) : List LRange → Option (Bool × SafetyReason)
  | [] => some (true, .passed)
  | r :: rest =>
    if r.liquidity > 0 then
      if r.lower ≥ r.upper then some (false, .invalidBounds i)
      else if r.liquidity = 0 then some (false, .nonPositiveLiquidity i)
      else
        match safeDiv ((r.upper - r.lower) * 10000) r.lower with
        | none => none
        | some rangeSize =>
          if rangeSize < minRangeSize then some (false, .tooSmall i)
          else checkRangesFrom minRangeSize (i + 1) rest
    else checkRangesFrom minRangeSize (i + 1) rest

/-- `_validate_safety` from `rebalancing_engine/contract.py` (lines
432-473): liquidity conservation within `old_total // 1000` first, then the
per-slot structural checks. -/
def validateSafety (minRangeSize : Nat) (old new : List LRange) : Option (Bool × SafetyReason) :=
  let oldTotal := totalLiq old
  let newTotal := totalLiq new
  if natDist oldTotal newTotal > oldTotal / 1000 then some (false, .notConserved)
  else checkRangesFrom minRangeSize 0 new

/-- A range list holding a slot that is non-empty yet has `lower >= upper`. -/
def hasInvalidNonEmptyRange (rs : List LRange) : Bool :=
  rs.any fun r => decide (0 < r.liquidity) && decide (r.upper ≤ r.lower)

/-- Engine state: the fields set by `RebalancingEngine.__init__`
(`rebalancing_engine/contract.py` lines 68-88).  The admin address is an
external identity and is not part of the embedded state. -/
structure EngineState where
  is_initialized : Bool
  authorized_pool : Nat
  max_slippage : Nat
  rebalance_cooldown : Nat
  min_range_size : Nat
  last_rebalance_time : Nat
  last_trigger_volatility : Nat
  total_rebalances : Nat
  successful_rebalances : Nat
  failed_rebalances : Nat
  total_efficiency_gain : Nat
  average_efficiency_gain : Nat
deriving DecidableEq, Repr

/-- The state `__init__` builds: defaults 100 / 300 / 50 with all history
counters zero. -/
def initialEngineState : EngineState :=
  ⟨false, 0, 100, 300, 50, 0, 0, 0, 0, 0, 0, 0⟩

/-- `initialize_engine` from `rebalancing_engine/contract.py` (lines
90-119): the asserts guard the configuration; a failed assert rejects the
call (`none`), leaving the persisted state unchanged. -/
def initializeEngine (st : EngineState)
    (authorizedPoolId maxSlippage cooldownSeconds minRangeSize : Nat) : Option EngineState :=
  if st.is_initialized = false ∧ 0 < authorizedPoolId ∧ 0 < maxSlippage ∧
      maxSlippage ≤ 1000 ∧ 0 < cooldownSeconds ∧ 0 < minRangeSize then
    some { st with
      authorized_pool := authorizedPoolId
      max_slippage := maxSlippage
      rebalance_cooldown := cooldownSeconds
      min_range_size := minRangeSize
      is_initialized := true }
  else none

/-- `_parse_ranges` from `rebalancing_engine/contract.py` (lines 543-557):
the simplified parser ignores its JSON argument and returns the six
all-zero slots. -/
def parseRanges (_rangesJson : String) : List LRange := List.replicate 6 LRange.empty

/-- Outcomes of `validate_rebalance_proposal`, standing for the result
strings of `rebalancing_engine/contract.py` lines 224-236. -/
inductive ProposalResult where
  | notSafe (reason : SafetyReason)
  | insufficientGain (gain : Nat)
  | validProposal (gain : Nat)
deriving DecidableEq, Repr

/-- `validate_rebalance_proposal` from `rebalancing_engine/contract.py`
(lines 195-236): parse both JSON arguments, validate safety, then compare
the two efficiency scores; `none` models a rejected or faulted call. -/
def validateRebalanceProposal (st : EngineState)
    (currentRangesJson proposedRangesJson : String)
    (currentPrice volatility : Nat) : Option ProposalResult :=
  if st.is_initialized = false then none
  else
    let currentRanges := parseRanges currentRangesJson
    let proposedRanges := parseRanges proposedRangesJson
    match validateSafety st.min_range_size currentRanges proposedRanges with
    | none => none
    | some (isSafe, reason) =>
      if isSafe = false then some (.notSafe reason)
      else
        match contractEfficiencyScore currentRanges currentPrice volatility,
            contractEfficiencyScore proposedRanges currentPrice volatility with
        | some currentEfficiency, some proposedEfficiency =>
          let efficiencyGain := proposedEfficiency - currentEfficiency
          if efficiencyGain < 100 then some (.insufficientGain efficiencyGain)
          else some (.validProposal efficiencyGain)
        | _, _ => none

/-- Outcomes of `execute_rebalance` (`rebalancing_engine/contract.py` lines
262-282); `rejected` stands for a call stopped by an assert. -/
inductive ExecResult where
  | rejected
  | cooldownActive
  | executionFailed (reason : SafetyReason)
  | executedSuccessfully
deriving DecidableEq, Repr

/-- The body of `execute_rebalance` from `rebalancing_engine/contract.py`
(lines 238-282) after range parsing, taking the parsed range sets: asserts,
cooldown check, safety validation, then the failure or success updates.
`none` models a faulted validation aborting the transaction. -/
def executeRebalanceRanges (st : EngineState) (callerAppId : Nat)
    (oldRanges newRanges : List LRange) (now : Nat) : Option (EngineState × ExecResult) :=
  if st.is_initialized = false ∨ callerAppId ≠ st.authorized_pool then some (st, .rejected)
  else if now - st.last_rebalance_time < st.rebalance_cooldown then some (st, .cooldownActive)
  else
    match validateSafety st.min_range_size oldRanges newRanges with
    | none => none
    | some (isSafe, reason) =>
      if isSafe = false then
        some ({ st with failed_rebalances := st.failed_rebalances + 1 }, .executionFailed reason)
      else
        some ({ st with
          last_rebalance_time := now
          total_rebalances := st.total_rebalances + 1
          successful_rebalances := st.successful_rebalances + 1 }, .executedSuccessfully)

/-- `execute_rebalance` as callable on chain: both JSON arguments go through
`parseRanges`.  A faulted transaction leaves the persisted state unchanged,
which `getD (st, rejected)` captures. -/
def executeRebalance (st : EngineState) (callerAppId : Nat)
    (oldRangesJson newRangesJson : String) (now : Nat) : EngineState × ExecResult :=
  (executeRebalanceRanges st callerAppId
    (parseRanges oldRangesJson) (parseRanges newRangesJson) now).getD (st, .rejected)

/-- States of the `RebalancingEngine` contract reachable from deployment by
the state-mutating public methods (`initialize_engine` and
`execute_rebalance`; the remaining ABI methods are read-only). -/
inductive EngineReachable : EngineState → Prop where
  | start : EngineReachable initialEngineState
  | doInitialize (st : EngineState) (p s c m : Nat) :
      EngineReachable st → EngineReachable ((initializeEngine st p s c m).getD st)
  | doExecute (st : EngineState) (caller : Nat) (s1 s2 : String) (now : Nat) :
      EngineReachable st → EngineReachable (executeRebalance st caller s1 s2 now).1

/-- Regimes of the legacy volatility oracle (`_update_regime`,
`legacy/volatility_oracle/contract.py` lines 204-212). -/
inductive VolRegime where
  | low
  | medium
  | high
deriving DecidableEq, Repr

/-- Oracle state: the fields set by `VolatilityOracleContract.__init__`
(`legacy/volatility_oracle/contract.py` lines 52-84).  The ten price slots
are embedded as a list of at most ten prices, newest first; timestamps and
the rebalance bookkeeping fields are external to the claims and omitted. -/
structure OracleState where
  alpha : Nat
  window_size : Nat
  is_initialized : Bool
  current_price : Nat
  current_volatility : Nat
  current_regime : VolRegime
  ewma_mean : Nat
  ewma_variance : Nat
  price_history : List Nat
deriving DecidableEq, Repr

/-- The state `__init__` builds: alpha 300000, window 10, everything else
zero or empty. -/
def defaultOracleState : OracleState := ⟨300000, 10, false, 0, 0, .medium, 0, 0, []⟩

/-- `initialize_oracle` from `legacy/volatility_oracle/contract.py` (lines
86-126): the asserts guard price, alpha and window size; on success the
EWMA state is zeroed while `current_volatility` is seeded at
`LOW_VOLATILITY_THRESHOLD // 2 = 10000` (the "start at 1% volatility"
line). -/
def initializeOracle (st : OracleState) (initialPrice alpha windowSize : Nat) :
    Option OracleState :=
  if st.is_initialized = false ∧ 0 < initialPrice ∧ 0 < alpha ∧ alpha ≤ 1000000 ∧
      0 < windowSize ∧ windowSize ≤ 50 then
    some { st with
      alpha := alpha
      window_size := windowSize
      current_price := initialPrice
      ewma_mean := 0
      ewma_variance := 0
      price_history := [initialPrice]
      current_volatility := 10000
      current_regime := .medium
      is_initialized := true }
  else none

/-- `_calculate_return` from `legacy/volatility_oracle/contract.py` (lines
163-175): the branch on price direction makes the result the scaled
absolute change `|new - old| * 1e6 // old`, never a signed value. -/
def calculateReturn (oldPrice newPrice : Nat) : Nat :=
  if oldPrice = 0 then 0
  else if newPrice ≥ oldPrice then (newPrice - oldPrice) * 1000000 / oldPrice
  else (oldPrice - newPrice) * 1000000 / oldPrice

/-- Following the spec's words (section 4.1, step 1): the signed
single-step return `(new_price - old_price) / old_price`, at the 1e6 scale,
for comparison with `calculateReturn`. -/
def specSignedReturn (oldPrice newPrice : Int) : Int :=
  (newPrice - oldPrice) * 1000000 / oldPrice

/-- `_update_ewma` from `legacy/volatility_oracle/contract.py` (lines
177-196): the EWMA mean update followed by the variance update against the
new mean, both at the 1e6 scale; returns the pair (mean, variance). -/
def updateEwma (alpha ewmaMean ewmaVariance returnValue : Nat) : Nat × Nat :=
  let oneMinusAlpha := 1000000 - alpha
  let newEwmaMean := (alpha * returnValue + oneMinusAlpha * ewmaMean) / 1000000
  let squaredDeviation := natDist returnValue newEwmaMean * natDist returnValue newEwmaMean
  let newEwmaVariance := (alpha * squaredDeviation + oneMinusAlpha * ewmaVariance) / 1000000
  (newEwmaMean, newEwmaVariance)

/-- The iteration of `_sqrt` from `legacy/volatility_oracle/contract.py`
(lines 243-250): at most ten Newton steps, returning the previous iterate
once it stops decreasing, and the last iterate when the fuel runs out. -/
def newtonSqrtLoop (x : Nat) : Nat → Nat → Nat → Nat
  | 0, z, _ => z
  | fuel + 1, z, y => if y ≥ z then z else newtonSqrtLoop x fuel y ((y + x / y) / 2)

/-- `_sqrt` from `legacy/volatility_oracle/contract.py` (lines 233-250):
Newton's method seeded at `z = x`, `y = (x + 1) // 2`, capped at ten
iterations. -/
def newtonSqrt (x : Nat) : Nat :=
  if x = 0 then 0 else newtonSqrtLoop x 10 x ((x + 1) / 2)

/-- `_update_regime` from `legacy/volatility_oracle/contract.py` (lines
204-212). -/
def classifyOracleRegime (vol : Nat) : VolRegime :=
  if vol < 20000 then .low
  else if vol > 50000 then .high
  else .medium

/-- `update_price` from `legacy/volatility_oracle/contract.py` (lines
128-161): asserts, then (the stored price being positive in every
initialized state) return calculation, EWMA update, volatility from
`_sqrt`, regime update, history shift and price write. -/
def updatePrice (st : OracleState) (newPrice : Nat) : Option OracleState :=
  if st.is_initialized = false ∨ newPrice = 0 then none
  else
    let st1 :=
      if 0 < st.current_price then
        let priceChange := calculateReturn st.current_price newPrice
        let mv := updateEwma st.alpha st.ewma_mean st.ewma_variance priceChange
        let vol := newtonSqrt mv.2
        { st with
          ewma_mean := mv.1
          ewma_variance := mv.2
          current_volatility := vol
          current_regime := classifyOracleRegime vol }
      else st
    some { st1 with
      price_history := (newPrice :: st1.price_history).take 10
      current_price := newPrice }

/-- A sample JSON argument for witness instantiations. -/
def sampleOldJson : String := "[]"

/-- A second sample JSON argument for witness instantiations. -/
def sampleNewJson : String := "[]"

/-- A concrete initialized engine state used by witnesses: pool 7,
defaults elsewhere. -/
def engineStExample : EngineState := ⟨true, 7, 100, 300, 50, 0, 0, 0, 0, 0, 0, 0⟩

/-- A six-slot range set holding one non-empty range of liquidity 1000. -/
def oldRangesExample : List LRange :=
  [⟨100, 200, 1000⟩, LRange.empty, LRange.empty, LRange.empty, LRange.empty, LRange.empty]

/-- The six all-zero slots. -/
def newRangesZero : List LRange := List.replicate 6 LRange.empty

/-- A six-slot range set of total liquidity 10. -/
def oldRangesTen : List LRange :=
  [⟨1, 2, 10⟩, LRange.empty, LRange.empty, LRange.empty, LRange.empty, LRange.empty]

/-- A new range set whose first non-empty slot has `lower = 0` (faulting the
minimum-size division) and whose second non-empty slot has
`lower >= upper`. -/
def newRangesZeroLower : List LRange :=
  [⟨0, 10, 5⟩, ⟨7, 3, 5⟩, LRange.empty, LRange.empty, LRange.empty, LRange.empty]

/-- A new range set of total liquidity 10 whose first slot has
`lower >= upper` and all non-empty slots have positive lower bounds. -/
def newRangesBadBounds : List LRange :=
  [⟨7, 3, 10⟩, LRange.empty, LRange.empty, LRange.empty, LRange.empty, LRange.empty]

/-- The state produced by initializing a fresh oracle at price 100 with
alpha 300000 and window 10. -/
def oracleStExample : OracleState := ⟨300000, 10, true, 100, 10000, .medium, 0, 0, [100]⟩

end Seltra

namespace Seltra

/-- C8: boundary exactness of `classifyVolatilityRegime`, with the factor
and range count attached to each regime, exactly as the decision tree of
`_classify_volatility_regime` fixes them. -/
theorem classify_boundaries :
    classifyVolatilityRegime 14999 = (.ultraLow, 4000, 2) ∧
    classifyVolatilityRegime 15000 = (.low, 6000, 3) ∧
    classifyVolatilityRegime 29999 = (.low, 6000, 3) ∧
    classifyVolatilityRegime 30000 = (.medium, 10000, 4) ∧
    classifyVolatilityRegime 59999 = (.medium, 10000, 4) ∧
    classifyVolatilityRegime 60000 = (.high, 18000, 5) ∧
    classifyVolatilityRegime 119999 = (.high, 18000, 5) ∧
    classifyVolatilityRegime 120000 = (.extreme, 25000, 6) := by
  refine ⟨?_, ?_, ?_, ?_, ?_, ?_, ?_, ?_⟩ <;> decide

/-- C2: `shouldRebalance` suppresses below the configured cooldown whatever
the other signals are, and once the cooldown has elapsed it triggers exactly
when efficiency is below 6000, or the volatility change exceeds 20000, or
more than 3600 seconds have passed. -/
theorem should_rebalance_spec (cooldown efficiency timeSinceLast volatilityChange : Nat) :
    (timeSinceLast < cooldown →
      shouldRebalance cooldown efficiency timeSinceLast volatilityChange = false) ∧
    (cooldown ≤ timeSinceLast →
      (shouldRebalance cooldown efficiency timeSinceLast volatilityChange = true ↔
        (efficiency < 6000 ∨ volatilityChange > 20000 ∨ timeSinceLast > 3600))) := by
  constructor
  · intro h
    simp [shouldRebalance, h]
  · intro h
    have h' : ¬ timeSinceLast < cooldown := Nat.not_lt.mpr h
    simp only [shouldRebalance, if_neg h']
    by_cases he : efficiency < 6000 <;>
      by_cases hv : volatilityChange > 20000 <;>
      by_cases ht : timeSinceLast > 3600 <;>
      simp [he, hv, ht]

/-- C2 witness: the spec's concrete cases, cooldown 300. -/
theorem should_rebalance_spec_witness :
    shouldRebalance 300 8000 100 5000 = false ∧
    shouldRebalance 300 3000 400 5000 = true := by
  refine ⟨(should_rebalance_spec 300 8000 100 5000).1 (by decide), ?_⟩
  exact ((should_rebalance_spec 300 3000 400 5000).2 (by decide)).mpr (Or.inl (by decide))

/-- C1: the on-chain allocator does not conserve liquidity.  At
`current_price = 1000000`, `concentration_factor = 4000` (ultra-low regime),
`range_count = 2`, `total_liquidity = 1000000`, the two slots each receive
`500000 + 125000`, so the allocated sum is `1250000`, exceeding the supplied
total by 25%, far beyond the 0.1% tolerance the repository's own test
harness asserts; the harness's weight-normalised allocator conserves the
total exactly on the same input. -/
theorem contract_allocation_not_conserved :
    sumLiq (calculateRangesForRegime 1000000 4000 2 1000000) = 1250000 ∧
    natDist 1250000 1000000 > 1000000 / 1000 ∧
    sumLiq (logicCalculateRanges 1000000 4000 2 1000000) = 1000000 := by
  refine ⟨by decide, by decide, by decide⟩

/-- C3: at zero volatility `max_reasonable_distance = 0`, and the on-chain
`_calculate_efficiency_score` divides by it, so on a set holding one
non-empty range away from the price the on-chain score is undefined (the
call fails), while the test harness's step function yields the fixed low
score 1000 for that range, the full 10000 for a range centred within 1% of
the price, and the defined total score 1000 for the same set. -/
theorem efficiency_zero_volatility_divides_by_zero :
    contractEfficiencyScore
      [⟨800000, 900000, 1000⟩, LRange.empty, LRange.empty,
        LRange.empty, LRange.empty, LRange.empty] 1000000 0 = none ∧
    logicProximityScore 1000000 0 800000 900000 = 1000 ∧
    logicProximityScore 1000000 0 995000 1005000 = 10000 ∧
    logicEfficiencyScore
      [⟨800000, 900000, 1000⟩, LRange.empty, LRange.empty,
        LRange.empty, LRange.empty, LRange.empty] 1000000 0 = 1000 := by
  refine ⟨by decide, by decide, by decide, by decide⟩

/-- `_validate_safety` accepts a pair of all-zero range sets: totals are both
zero and every slot is skipped. -/
theorem validateSafety_zeros (ms : Nat) :
    validateSafety ms (List.replicate 6 LRange.empty) (List.replicate 6 LRange.empty) =
      some (true, .passed) := rfl

/-- `_calculate_efficiency_score` of the all-zero range set is a defined
zero at every price and volatility: the loop skips every slot. -/
theorem contractEfficiencyScore_zeros (currentPrice volatility : Nat) :
    contractEfficiencyScore (List.replicate 6 LRange.empty) currentPrice volatility =
      some 0 := rfl

/-- C6: on an initialized engine, `validate_rebalance_proposal` parses both
JSON arguments to the all-zero range set, so validation passes, both
efficiency scores are 0, and the result is always the insufficient-gain
outcome with gain 0 — never unsafe and never valid. -/
theorem proposal_always_insufficient_gain (st : EngineState)
    (currentRangesJson proposedRangesJson : String) (currentPrice volatility : Nat)
    (hinit : st.is_initialized = true) (hp : 0 < currentPrice) :
    validateRebalanceProposal st currentRangesJson proposedRangesJson currentPrice volatility =
      some (.insufficientGain 0) := by
  simp only [validateRebalanceProposal, hinit]
  rfl

/-- C6 witness: a concrete initialized engine, arbitrary JSON arguments,
price 5, volatility 0. -/
theorem proposal_always_insufficient_gain_witness :
    validateRebalanceProposal engineStExample sampleOldJson sampleNewJson 5 0 =
      some (.insufficientGain 0) :=
  proposal_always_insufficient_gain engineStExample sampleOldJson sampleNewJson 5 0
    rfl (by decide)

/-- C9: when `execute_rebalance` passes the asserts and the cooldown check
but safety validation fails, exactly `failed_rebalances` is incremented;
`last_rebalance_time`, `total_rebalances` and `successful_rebalances` keep
their values, so the cooldown window is not reset. -/
theorem execute_failed_increments_only_failures (st : EngineState) (callerAppId : Nat)
    (oldRanges newRanges : List LRange) (now : Nat) (reason : SafetyReason)
    (hinit : st.is_initialized = true)
    (hauth : callerAppId = st.authorized_pool)
    (hcool : ¬ now - st.last_rebalance_time < st.rebalance_cooldown)
    (hval : validateSafety st.min_range_size oldRanges newRanges = some (false, reason)) :
    ∃ st', executeRebalanceRanges st callerAppId oldRanges newRanges now =
        some (st', .executionFailed reason) ∧
      st'.failed_rebalances = st.failed_rebalances + 1 ∧
      st'.last_rebalance_time = st.last_rebalance_time ∧
      st'.total_rebalances = st.total_rebalances ∧
      st'.successful_rebalances = st.successful_rebalances := by
  have h : executeRebalanceRanges st callerAppId oldRanges newRanges now =
      some ({ st with failed_rebalances := st.failed_rebalances + 1 },
        .executionFailed reason) := by
    simp [executeRebalanceRanges, hinit, hauth, hcool, hval]
  exact ⟨_, h, rfl, rfl, rfl, rfl⟩

/-- C9 witness: a concrete engine past its cooldown, given a new range set
that loses all liquidity, so validation reports non-conservation. -/
theorem execute_failed_increments_only_failures_witness :
    ∃ st', executeRebalanceRanges engineStExample 7 oldRangesExample newRangesZero 1000 =
        some (st', .executionFailed .notConserved) ∧
      st'.failed_rebalances = engineStExample.failed_rebalances + 1 ∧
      st'.last_rebalance_time = engineStExample.last_rebalance_time ∧
      st'.total_rebalances = engineStExample.total_rebalances ∧
      st'.successful_rebalances = engineStExample.successful_rebalances :=
  execute_failed_increments_only_failures engineStExample 7 oldRangesExample newRangesZero
    1000 .notConserved rfl rfl (by decide) (by decide)

/-- C4: the legacy oracle's `_calculate_return` folds the sign away.  On a
price fall from 100 to 50 it yields the positive 500000 where the spec's
signed return is -500000, and this positive value is what `_update_ewma`
receives: the resulting EWMA mean is the positive 150000. -/
theorem return_is_absolute_not_signed :
    calculateReturn 100 50 = 500000 ∧
    specSignedReturn 100 50 = -500000 ∧
    ((500000 : Int) ≠ (-500000 : Int)) ∧
    updateEwma 300000 0 0 (calculateReturn 100 50) = (150000, 36750000000) := by
  refine ⟨by decide, by decide, by decide, by decide⟩

/-- C7 counterexample: immediately after a successful `initialize_oracle`
the state has `ewma_variance = 0` but `current_volatility = 10000` (the
seeded 1%), so the volatility is NOT the integer square root of the
variance — neither `Nat.sqrt` nor the contract's own Newton `_sqrt`, both
of which give 0. -/
theorem oracle_init_volatility_mismatch :
    initializeOracle defaultOracleState 100 300000 10 = some oracleStExample ∧
    oracleStExample.ewma_variance = 0 ∧
    oracleStExample.current_volatility = 10000 ∧
    Nat.sqrt oracleStExample.ewma_variance = 0 ∧
    newtonSqrt oracleStExample.ewma_variance = 0 ∧
    oracleStExample.current_volatility ≠ Nat.sqrt oracleStExample.ewma_variance := by
  refine ⟨by decide, rfl, rfl, by decide, by decide, by decide⟩

/-- C7 amended: `ewma_variance` is non-negative throughout (it lives in
Nat); a successful initialization zeroes the EWMA state but seeds
`current_volatility` at 10000, and every successful `update_price` on an
initialized state (whose stored price is positive) re-establishes
`current_volatility = newtonSqrt ewma_variance`, the contract's
ten-iteration Newton square root. -/
theorem oracle_update_restores_sqrt :
    (∀ st initialPrice a w st', initializeOracle st initialPrice a w = some st' →
      st'.ewma_variance = 0 ∧ st'.current_volatility = 10000) ∧
    (∀ st newPrice, st.is_initialized = true → 0 < st.current_price → 0 < newPrice →
      ∃ st', updatePrice st newPrice = some st' ∧
        st'.current_volatility = newtonSqrt st'.ewma_variance) := by
  constructor
  · intro st p a w st' h
    unfold initializeOracle at h
    split at h
    · injection h with h
      subst h
      exact ⟨rfl, rfl⟩
    · exact absurd h (by simp)
  · intro st newPrice hinit hcp hnp
    have hcond : ¬ (st.is_initialized = false ∨ newPrice = 0) := by
      simp [hinit, Nat.pos_iff_ne_zero.mp hnp]
    simp only [updatePrice, if_neg hcond, if_pos hcp]
    exact ⟨_, rfl, rfl⟩

/-- C7 witness: the amended facts at the concrete initialization
`(100, 300000, 10)` and a follow-up price update to 110. -/
theorem oracle_update_restores_sqrt_witness :
    (oracleStExample.ewma_variance = 0 ∧ oracleStExample.current_volatility = 10000) ∧
    ∃ st', updatePrice oracleStExample 110 = some st' ∧
      st'.current_volatility = newtonSqrt st'.ewma_variance :=
  ⟨oracle_update_restores_sqrt.1 defaultOracleState 100 300000 10 oracleStExample (by decide),
    oracle_update_restores_sqrt.2 oracleStExample 110 rfl (by decide) (by decide)⟩

/-- C5 counterexample: the new set holds a non-empty slot with
`lower >= upper` (slot 1: 7 >= 3) and totals are conserved, yet
`_validate_safety` returns no unsafe result: slot 0 is non-empty with
`lower = 0`, so the minimum-size computation divides by zero and the call
faults before the bad bounds are reached. -/
theorem validate_zero_lower_faults :
    validateSafety 50 oldRangesTen newRangesZeroLower = none ∧
    hasInvalidNonEmptyRange newRangesZeroLower = true := by
  refine ⟨by decide, by decide⟩

/-- If every non-empty slot has a positive lower bound and some slot is
non-empty with `lower >= upper`, the slot loop of `_validate_safety` ends
in a failure. -/
theorem checkRangesFrom_unsafe_of_invalid (ms : Nat) :
    ∀ (i : Nat) (l : List LRange),
      (∀ r ∈ l, 0 < r.liquidity → 0 < r.lower) →
      hasInvalidNonEmptyRange l = true →
      ∃ reason, checkRangesFrom ms i l = some (false, reason) := by
  intro i l
  induction l generalizing i with
  | nil => intro _ h; simp [hasInvalidNonEmptyRange] at h
  | cons r rest ih =>
    intro hpos hinv
    by_cases hl : 0 < r.liquidity
    · by_cases hb : r.upper ≤ r.lower
      · exact ⟨.invalidBounds i, by simp [checkRangesFrom, hl, hb]⟩
      · have hlow : 0 < r.lower := hpos r (by simp) hl
        have hrest : hasInvalidNonEmptyRange rest = true := by
          simp only [hasInvalidNonEmptyRange, List.any_cons, Bool.or_eq_true,
            Bool.and_eq_true, decide_eq_true_eq] at hinv
          rcases hinv with ⟨_, h2⟩ | h
          · exact absurd h2 hb
          · simpa [hasInvalidNonEmptyRange] using h
        obtain ⟨rs, hrs⟩ :=
          ih (i + 1) (fun r' hr' => hpos r' (List.mem_cons_of_mem _ hr')) hrest
        have hne : ¬ r.liquidity = 0 := Nat.pos_iff_ne_zero.mp hl
        have hlne : ¬ r.lower = 0 := Nat.pos_iff_ne_zero.mp hlow
        by_cases hsz : (r.upper - r.lower) * 10000 / r.lower < ms
        · exact ⟨.tooSmall i, by simp [checkRangesFrom, hl, hb, hne, safeDiv, hlne, hsz]⟩
        · exact ⟨rs, by simp [checkRangesFrom, hl, hb, hne, safeDiv, hlne, hsz, hrs]⟩
    · have hrest : hasInvalidNonEmptyRange rest = true := by
        simp only [hasInvalidNonEmptyRange, List.any_cons, Bool.or_eq_true,
          Bool.and_eq_true, decide_eq_true_eq] at hinv
        rcases hinv with ⟨h1, _⟩ | h
        · exact absurd h1 hl
        · simpa [hasInvalidNonEmptyRange] using h
      obtain ⟨rs, hrs⟩ :=
        ih (i + 1) (fun r' hr' => hpos r' (List.mem_cons_of_mem _ hr')) hrest
      exact ⟨rs, by simp [checkRangesFrom, hl, hrs]⟩

/-- If the slot loop of `_validate_safety` reports success, every non-empty
slot has ordered bounds and meets the minimum size. -/
theorem checkRangesFrom_ok (ms : Nat) :
    ∀ (i : Nat) (l : List LRange) (rs : SafetyReason),
      checkRangesFrom ms i l = some (true, rs) →
      ∀ r ∈ l, 0 < r.liquidity →
        r.lower < r.upper ∧ ms ≤ (r.upper - r.lower) * 10000 / r.lower := by
  intro i l
  induction l generalizing i with
  | nil => intro rs _ r hr; exact absurd hr (by simp)
  | cons a rest ih =>
    intro rs h r hr hliq
    by_cases ha : 0 < a.liquidity
    · by_cases hb : a.lower ≥ a.upper
      · simp [checkRangesFrom, ha, hb] at h
      · have hne : ¬ a.liquidity = 0 := Nat.pos_iff_ne_zero.mp ha
        by_cases hlz : a.lower = 0
        · simp [checkRangesFrom, ha, hb, hne, safeDiv, hlz] at h
        · by_cases hsz : (a.upper - a.lower) * 10000 / a.lower < ms
          · simp [checkRangesFrom, ha, hb, hne, safeDiv, hlz, hsz] at h
          · have h' : checkRangesFrom ms (i + 1) rest = some (true, rs) := by
              simpa [checkRangesFrom, ha, hb, hne, safeDiv, hlz, hsz] using h
            rcases List.mem_cons.mp hr with rfl | hr'
            · exact ⟨Nat.lt_of_not_le hb, Nat.le_of_not_lt hsz⟩
            · exact ih (i + 1) rs h' r hr' hliq
    · rcases List.mem_cons.mp hr with rfl | hr'
      · exact absurd hliq ha
      · have h' : checkRangesFrom ms (i + 1) rest = some (true, rs) := by
          simpa [checkRangesFrom, ha] using h
        exact ih (i + 1) rs h' r hr' hliq

/-- C5 amended: `_validate_safety` returns the non-conservation failure
whenever the totals differ by more than `old_total // 1000`; provided every
non-empty new slot has a positive lower bound (a zero lower bound instead
faults the minimum-size division, as the counterexample shows), it returns
an unsafe result whenever some non-empty new slot has `lower >= upper`; and
it reports success only when conservation, bounds ordering and the minimum
size all hold. -/
theorem validate_safety_spec :
    (∀ ms old new, natDist (totalLiq old) (totalLiq new) > totalLiq old / 1000 →
      validateSafety ms old new = some (false, .notConserved)) ∧
    (∀ ms old new, (∀ r ∈ new, 0 < r.liquidity → 0 < r.lower) →
      hasInvalidNonEmptyRange new = true →
      ∃ reason, validateSafety ms old new = some (false, reason)) ∧
    (∀ ms old new rs, validateSafety ms old new = some (true, rs) →
      natDist (totalLiq old) (totalLiq new) ≤ totalLiq old / 1000 ∧
      ∀ r ∈ new, 0 < r.liquidity →
        r.lower < r.upper ∧ ms ≤ (r.upper - r.lower) * 10000 / r.lower) := by
  refine ⟨?_, ?_, ?_⟩
  · intro ms old new h
    simp [validateSafety, h]
  · intro ms old new hpos hinv
    by_cases hc : natDist (totalLiq old) (totalLiq new) > totalLiq old / 1000
    · exact ⟨.notConserved, by simp [validateSafety, hc]⟩
    · obtain ⟨rs, hrs⟩ := checkRangesFrom_unsafe_of_invalid ms 0 new hpos hinv
      exact ⟨rs, by simp [validateSafety, hc, hrs]⟩
  · intro ms old new rs h
    have hc : ¬ natDist (totalLiq old) (totalLiq new) > totalLiq old / 1000 := by
      intro hc
      simp [validateSafety, hc] at h
    refine ⟨Nat.le_of_not_lt hc, ?_⟩
    have h' : checkRangesFrom ms 0 new = some (true, rs) := by
      simpa [validateSafety, hc] using h
    exact checkRangesFrom_ok ms 0 new rs h'

/-- C5 witness: the three amended facts at concrete inputs — a total loss
of liquidity, a bad-bounds slot with positive lowers, and an identical
valid pair. -/
theorem validate_safety_spec_witness :
    validateSafety 50 oldRangesTen newRangesZero = some (false, .notConserved) ∧
    (∃ reason, validateSafety 50 oldRangesTen newRangesBadBounds = some (false, reason)) ∧
    (natDist (totalLiq oldRangesExample) (totalLiq oldRangesExample) ≤
        totalLiq oldRangesExample / 1000 ∧
      ∀ r ∈ oldRangesExample, 0 < r.liquidity →
        r.lower < r.upper ∧ 50 ≤ (r.upper - r.lower) * 10000 / r.lower) :=
  ⟨validate_safety_spec.1 50 oldRangesTen newRangesZero (by decide),
    validate_safety_spec.2.1 50 oldRangesTen newRangesBadBounds (by decide) (by decide),
    validate_safety_spec.2.2 50 oldRangesExample oldRangesExample .passed (by decide)⟩

/-- C10: in every reachable state of the `RebalancingEngine`,
`total_rebalances = successful_rebalances`: deployment zeroes both, the
success path of `execute_rebalance` increments both together, and the
failure path touches only `failed_rebalances`. -/
theorem total_equals_successful (st : EngineState) (h : EngineReachable st) :
    st.total_rebalances = st.successful_rebalances := by
  induction h with
  | start => rfl
  | doInitialize st p s c m _ ih =>
    unfold initializeEngine
    split
    · exact ih
    · exact ih
  | doExecute st caller s1 s2 now _ ih =>
    unfold executeRebalance executeRebalanceRanges
    split
    · exact ih
    · split
      · exact ih
      · rw [show validateSafety st.min_range_size (parseRanges s1) (parseRanges s2) =
          some (true, .passed) from validateSafety_zeros _]
        simpa using ih

/-- C10 witness: the invariant at the deployment state. -/
theorem total_equals_successful_witness :
    initialEngineState.total_rebalances = initialEngineState.successful_rebalances :=
  total_equals_successful initialEngineState EngineReachable.start

end Seltra
